import Mathlib

/-
Verification development for the Symmetry token-swap AMM adapter
(src/jupiter-core/src/amms/accounts.rs and
 src/jupiter-core/src/amms/symmetry_token_swap.rs).

Modelling conventions (shallow embedding of the Rust source):
  - u64 values are Nat; every arithmetic operator of the source that acts on
    u64 is translated with its release-build semantics: `+`, `-`, `*` wrap
    modulo 2^64 (wadd / wsub / wmul below), `as u64` on a u128 truncates
    modulo 2^64, `u64::pow` wraps modulo 2^64, and `/` on u128 is exact
    natural division (a 128-bit product of two u64 never overflows u128).
  - Fallible code returns Option: a Rust panic (explicit panic!(),
    Option::unwrap on None, or an out-of-bounds index) is `none`.
  - Pubkey values are opaque 32-byte identifiers, modelled as Nat
    (little-endian value of the bytes); Pubkey::default() is 0.
  - Account blobs (Vec<u8>) are modelled as a length plus a byte function.
  - The on-chain Clock sysvar is an injected parameter.
-/

/-- Modulus of the 64-bit unsigned machine integers of the source. -/
def M64 : Nat := 2 ^ 64

/-- Wrapping u64 addition (release-build semantics of Rust `+`). -/
def wadd (a b : Nat) : Nat := (a + b) % M64

/-- Wrapping u64 subtraction (release-build semantics of Rust `-`). -/
def wsub (a b : Nat) : Nat := (a % M64 + (M64 - b % M64)) % M64

/-- Wrapping u64 multiplication (release-build semantics of Rust `*`). -/
def wmul (a b : Nat) : Nat := (a * b) % M64

/-- Wrapping u64::pow with base 10, used for `u64::pow(10, e)`. -/
def upow10 (e : Nat) : Nat := (10 ^ e) % M64

/-- Reinterpretation of a u64 bit pattern as i64 (`as i64` in the source). -/
def i64ofU64 (n : Nat) : Int :=
  if n % M64 < 2 ^ 63 then (n % M64 : Int) else (n % M64 : Int) - M64

/-- Reinterpretation of an i64 value as u64 (`as u64` in the source). -/
def u64ofI64 (i : Int) : Nat := (i % (M64 : Int)).toNat

/-- Constants of accounts.rs. -/
def MAX_TOKENS_IN_ASSET_POOL : Nat := 100

def NUM_TOKENS_IN_FUND : Nat := 20

def NUM_OF_POINTS_IN_CURVE_DATA : Nat := 10

def ONE_USD : Nat := 1000000000000

def USE_CURVE_DATA : Nat := 1

def BPS_DIVIDER : Nat := 10000

def WEIGHT_MULTIPLIER : Nat := 10000

def LP_DISABLED : Nat := 0

/-- Program addresses of symmetry_token_swap.rs; the concrete 32-byte values
are opaque identifiers, modelled as distinct Nat codes. -/
def SYMMETRY_PROGRAM_ADDRESS : Nat := 910001

def TOKEN_LIST_ADDRESS : Nat := 910002

def CURVE_DATA_ADDRESS : Nat := 910003

def PDA_ADDRESS : Nat := 910004

def SWAP_FEE_ADDRESS : Nat := 910005

def ASSOCIATED_TOKEN_PROGRAM_ADDRESS : Nat := 910006

def SPL_TOKEN_PROGRAM_ADDRESS : Nat := 910007

/-- SymmetryTokenSwap.mul_div of accounts.rs / symmetry_token_swap.rs:
`match c { 0 => 0, _ => ((a as u128) * (b as u128) / (c as u128)) as u64 }`.
For a, b < 2^64 the u128 product and quotient are exact; the final
`as u64` cast truncates the quotient modulo 2^64. -/
def SymmetryTokenSwap.mul_div (a b c : Nat) : Nat :=
  if c = 0 then 0 else (a * b / c) % M64

/-- amount_to_usd_value of symmetry_token_swap.rs. -/
def amount_to_usd_value (amount decimals price : Nat) : Nat :=
  SymmetryTokenSwap.mul_div amount price (upow10 decimals)

/-- usd_value_to_amount of symmetry_token_swap.rs. -/
def usd_value_to_amount (worth decimals price : Nat) : Nat :=
  SymmetryTokenSwap.mul_div worth (upow10 decimals) price

/-- OraclePrice of accounts.rs (derived sell/avg/buy triplet plus liveness). -/
structure OraclePrice where
  sell_price : Nat
  avg_price : Nat
  buy_price : Nat
  oracle_live : Nat
deriving DecidableEq, Repr

/-- TokenSettings of accounts.rs (one catalog entry). -/
structure TokenSettings where
  token_mint : Nat
  decimals : Nat
  coingecko_id : List Nat
  pda_token_account : Nat
  oracle_type : Nat
  oracle_account : Nat
  oracle_index : Nat
  oracle_confidence_pct : Nat
  fixed_confidence_bps : Nat
  token_swap_fee_after_tw_bps : Nat
  token_swap_fee_before_tw_bps : Nat
  is_live : Nat
  lp_on : Nat
  use_curve_data : Nat
  additional_data : List Nat
  oracle_price : OraclePrice
deriving DecidableEq, Repr

/-- TokenList of accounts.rs; `list` models the fixed
[TokenSettings; MAX_TOKENS_IN_ASSET_POOL] array (length 100 in real states). -/
structure TokenList where
  num_tokens : Nat
  list : List TokenSettings
deriving DecidableEq, Repr

/-- TokenPriceData of accounts.rs; `amount` and `price` model the fixed
[u64; NUM_OF_POINTS_IN_CURVE_DATA] arrays (length 10 in real states).
Indexing past the end is a runtime bounds-check panic in Rust and is
modelled with List.get?. -/
structure TokenPriceData where
  amount : List Nat
  price : List Nat
deriving DecidableEq, Repr

/-- CurveData of accounts.rs; `buy` and `sell` model fixed length-100 arrays. -/
structure CurveData where
  buy : List TokenPriceData
  sell : List TokenPriceData
deriving DecidableEq, Repr

/-- FundState of accounts.rs; the three sequences model fixed length-20 arrays. -/
structure FundState where
  manager : Nat
  host_pubkey : Nat
  num_of_tokens : Nat
  current_comp_token : List Nat
  current_comp_amount : List Nat
  target_weight : List Nat
  weight_sum : Nat
  rebalance_threshold : Nat
  lp_offset_threshold : Nat
deriving DecidableEq, Repr

/-- The adapter state of symmetry_token_swap.rs (the label string is omitted:
it is the constant "Symmetry" and never inspected). -/
structure SymmetryTokenSwap where
  key : Nat
  fund_state : FundState
  token_list : TokenList
  curve_data : CurveData
deriving DecidableEq, Repr

/-- Modelled from the spec: QuoteParams of the aggregator interface
(amms/amm.rs is not part of the two source files). -/
structure QuoteParams where
  input_mint : Nat
  in_amount : Nat
  output_mint : Nat
deriving DecidableEq, Repr

/-- Modelled from the spec: Quote of the aggregator interface (amms/amm.rs is
not part of the two source files). fee_pct and price_impact_pct are
rust_decimal values `Decimal::new(n as i64, 4)`; only the i64 mantissa is
modelled (the scale is the constant 4). Quote::default() has
not_enough_liquidity = false. -/
structure Quote where
  in_amount : Nat
  out_amount : Nat
  fee_amount : Nat
  fee_mint : Nat
  fee_pct_num : Int
  price_impact_pct_num : Int
  not_enough_liquidity : Bool
deriving DecidableEq, Repr, Inhabited

/-- Modelled from the spec: SwapParams of the aggregator interface
(amms/amm.rs is not part of the two source files). -/
structure SwapParams where
  source_mint : Nat
  destination_mint : Nat
  user_source_token_account : Nat
  user_destination_token_account : Nat
  user_transfer_authority : Nat
  in_amount : Nat
  open_order_address : Option Nat
  quote_mint_to_referrer : Option Nat
deriving DecidableEq, Repr

/-- Modelled from the spec: solana AccountMeta (pubkey plus signer/writable
roles); AccountMeta::new is writable, AccountMeta::new_readonly is not. -/
structure AccountMeta where
  pubkey : Nat
  is_signer : Bool
  is_writable : Bool
deriving DecidableEq, Repr

/-- Modelled from the spec: the injected Clock sysvar (slot counter and
wall-clock seconds) used by the oracle decoder. -/
structure Clock where
  slot : Nat
  unix_timestamp : Int
deriving DecidableEq, Repr

/-- Loop state of compute_value_of_sold_token. -/
structure SellState where
  current_amount : Nat
  curve_offset : Nat
  current_output_value : Nat
  amount_left : Nat
  current_price : Nat
deriving DecidableEq, Repr

/-- One pass of the sell-leg loop of compute_value_of_sold_token, over the
remaining step indices (the Rust `for step in 0..NUM_OF_POINTS_IN_CURVE_DATA+1`
with `continue`/`break`). Reading curve_data.amount[step] or
curve_data.price[step] is a bounds-checked index. -/
def sellWalkLoop (ts : TokenSettings) (target_amount : Nat) (cd : TokenPriceData) :
    List Nat → SellState → Option Nat
  | [], st => some st.current_output_value
  | step :: rest, st =>
    (if step < NUM_OF_POINTS_IN_CURVE_DATA then cd.amount.get? step
     else some st.amount_left).bind fun step_amount =>
    (if step < NUM_OF_POINTS_IN_CURVE_DATA then
       (cd.price.get? step).map fun cp =>
         if cp < st.current_price ∧ ts.use_curve_data = USE_CURVE_DATA then cp
         else st.current_price
     else some st.current_price).bind fun current_price =>
    let curve_offset := if step = NUM_OF_POINTS_IN_CURVE_DATA then 0 else st.curve_offset
    if step_amount ≤ curve_offset then
      (cd.amount.get? step).bind fun sa =>
        sellWalkLoop ts target_amount cd rest
          { st with curve_offset := wsub curve_offset sa, current_price := current_price }
    else
      let a0 := wsub step_amount curve_offset
      let amount_in_interval := if a0 > st.amount_left then st.amount_left else a0
      let amount_before_tw :=
        if st.current_amount ≥ target_amount then 0
        else if wadd st.current_amount amount_in_interval ≥ target_amount then
          wsub amount_in_interval (wsub (wadd st.current_amount amount_in_interval) target_amount)
        else amount_in_interval
      let amount_after_tw := wsub amount_in_interval amount_before_tw
      let value_before_tw := amount_to_usd_value amount_before_tw ts.decimals current_price
      let value_after_tw := amount_to_usd_value amount_after_tw ts.decimals current_price
      let fees :=
        wadd (SymmetryTokenSwap.mul_div value_before_tw ts.token_swap_fee_before_tw_bps BPS_DIVIDER)
             (SymmetryTokenSwap.mul_div value_after_tw ts.token_swap_fee_after_tw_bps BPS_DIVIDER)
      let current_output_value :=
        wadd st.current_output_value (wsub (wadd value_before_tw value_after_tw) fees)
      let amount_left := wsub st.amount_left amount_in_interval
      let current_amount := wadd st.current_amount amount_in_interval
      if amount_left = 0 then some current_output_value
      else
        sellWalkLoop ts target_amount cd rest
          { current_amount := current_amount, curve_offset := 0,
            current_output_value := current_output_value, amount_left := amount_left,
            current_price := current_price }

/-- compute_value_of_sold_token of symmetry_token_swap.rs. -/
def compute_value_of_sold_token (amount : Nat) (ts : TokenSettings) (price : OraclePrice)
    (start_amount target_amount : Nat) (cd : TokenPriceData) : Option Nat :=
  sellWalkLoop ts target_amount cd (List.range (NUM_OF_POINTS_IN_CURVE_DATA + 1))
    { current_amount := start_amount,
      curve_offset := if start_amount > target_amount then start_amount - target_amount else 0,
      current_output_value := 0, amount_left := amount, current_price := price.sell_price }

/-- Loop state of compute_amount_of_bought_token. -/
structure BuyState where
  current_amount : Nat
  curve_offset : Nat
  current_output_amount : Nat
  value_left : Nat
  current_price : Nat
deriving DecidableEq, Repr

/-- One pass of the buy-leg loop of compute_amount_of_bought_token. -/
def buyWalkLoop (ts : TokenSettings) (target_amount : Nat) (cd : TokenPriceData) :
    List Nat → BuyState → Option Nat
  | [], st => some st.current_output_amount
  | step :: rest, st =>
    (if step < NUM_OF_POINTS_IN_CURVE_DATA then cd.amount.get? step
     else some (usd_value_to_amount (wmul st.value_left 2) ts.decimals st.current_price)).bind
      fun step_amount =>
    (if step < NUM_OF_POINTS_IN_CURVE_DATA then
       (cd.price.get? step).map fun cp =>
         if cp > st.current_price ∧ ts.use_curve_data = USE_CURVE_DATA then cp
         else st.current_price
     else some st.current_price).bind fun current_price =>
    let curve_offset := if step = NUM_OF_POINTS_IN_CURVE_DATA then 0 else st.curve_offset
    if step_amount ≤ curve_offset then
      (cd.amount.get? step).bind fun sa =>
        buyWalkLoop ts target_amount cd rest
          { st with curve_offset := wsub curve_offset sa, current_price := current_price }
    else
      let a0 := wsub step_amount curve_offset
      let v0 := amount_to_usd_value a0 ts.decimals current_price
      let value_in_interval := if v0 > st.value_left then st.value_left else v0
      let amount_in_interval :=
        if v0 > st.value_left then usd_value_to_amount st.value_left ts.decimals current_price
        else a0
      let value_before_tw :=
        if st.current_amount ≤ target_amount then 0
        else if st.current_amount ≤ wadd target_amount amount_in_interval then
          wsub value_in_interval
            (amount_to_usd_value (wsub (wadd target_amount amount_in_interval) st.current_amount)
              ts.decimals current_price)
        else value_in_interval
      let value_after_tw := wsub value_in_interval value_before_tw
      let fees :=
        wadd (SymmetryTokenSwap.mul_div value_before_tw ts.token_swap_fee_before_tw_bps BPS_DIVIDER)
             (SymmetryTokenSwap.mul_div value_after_tw ts.token_swap_fee_after_tw_bps BPS_DIVIDER)
      let amount_bought :=
        usd_value_to_amount (wsub value_in_interval fees) ts.decimals current_price
      let current_output_amount := wadd st.current_output_amount amount_bought
      let value_left := wsub st.value_left value_in_interval
      let current_amount :=
        if amount_bought > st.current_amount then 0 else wsub st.current_amount amount_bought
      if value_left = 0 then some current_output_amount
      else
        buyWalkLoop ts target_amount cd rest
          { current_amount := current_amount, curve_offset := 0,
            current_output_amount := current_output_amount, value_left := value_left,
            current_price := current_price }

/-- compute_amount_of_bought_token of symmetry_token_swap.rs. -/
def compute_amount_of_bought_token (value : Nat) (ts : TokenSettings) (price : OraclePrice)
    (start_amount target_amount : Nat) (cd : TokenPriceData) : Option Nat :=
  buyWalkLoop ts target_amount cd (List.range (NUM_OF_POINTS_IN_CURVE_DATA + 1))
    { current_amount := start_amount,
      curve_offset := if start_amount < target_amount then target_amount - start_amount else 0,
      current_output_amount := 0, value_left := value, current_price := price.buy_price }

/-- An account blob (Vec of u8), modelled as its length plus a byte function;
indexing past `len` is a bounds-check panic. -/
structure Bytes where
  len : Nat
  byte : Nat → Nat

/-- Little-endian value of n bytes of a blob starting at `off`. -/
def leVal (d : Bytes) (off : Nat) : Nat → Nat
  | 0 => 0
  | n + 1 => d.byte off + 256 * leVal d (off + 1) n

/-- u64::from_le_bytes(data[off..off+8].try_into().unwrap()); the slice panics
when the blob is too short. -/
def readU64 (d : Bytes) (off : Nat) : Option Nat :=
  if off + 8 ≤ d.len then some (leVal d off 8) else none

/-- u32::from_le_bytes on a 4-byte slice. -/
def readU32 (d : Bytes) (off : Nat) : Option Nat :=
  if off + 4 ≤ d.len then some (leVal d off 4) else none

/-- i32::from_le_bytes on a 4-byte slice (two's complement). -/
def readI32 (d : Bytes) (off : Nat) : Option Int :=
  (readU32 d off).map fun v => if v < 2 ^ 31 then (v : Int) else (v : Int) - 2 ^ 32

/-- i64::from_le_bytes on an 8-byte slice (two's complement). -/
def readI64 (d : Bytes) (off : Nat) : Option Int :=
  (readU64 d off).map fun v => if v < 2 ^ 63 then (v : Int) else (v : Int) - 2 ^ 64

/-- Pubkey::new_from_array(data[off..off+32]), as the little-endian value of
the 32 bytes (an opaque injective encoding). -/
def readPk (d : Bytes) (off : Nat) : Option Nat :=
  if off + 32 ≤ d.len then some (leVal d off 32) else none

/-- FundState::load of accounts.rs: fixed-offset little-endian reads. -/
def FundState.load (d : Bytes) : Option FundState :=
  ((List.range NUM_TOKENS_IN_FUND).mapM fun i => readU64 d (176 + i * 8)).bind
    fun current_comp_token =>
  ((List.range NUM_TOKENS_IN_FUND).mapM fun i => readU64 d (336 + i * 8)).bind
    fun current_comp_amount =>
  ((List.range NUM_TOKENS_IN_FUND).mapM fun i => readU64 d (656 + i * 8)).bind
    fun target_weight =>
  (readU64 d 168).bind fun num_of_tokens =>
  (readU64 d 816).bind fun weight_sum =>
  (readU64 d 1024).bind fun rebalance_threshold =>
  (readU64 d 1040).bind fun lp_offset_threshold =>
  (readPk d 16).bind fun manager =>
  (readPk d 128).map fun host_pubkey =>
  { manager := manager, host_pubkey := host_pubkey, num_of_tokens := num_of_tokens,
    current_comp_token := current_comp_token, current_comp_amount := current_comp_amount,
    target_weight := target_weight, weight_sum := weight_sum,
    rebalance_threshold := rebalance_threshold, lp_offset_threshold := lp_offset_threshold }

/-- CurveData::load of accounts.rs: fixed-offset little-endian reads of the
buy and sell point tables. -/
def CurveData.load (d : Bytes) : Option CurveData :=
  ((List.range MAX_TOKENS_IN_ASSET_POOL).mapM fun i =>
    ((List.range NUM_OF_POINTS_IN_CURVE_DATA).mapM fun j =>
      readU64 d (8 + i * 160 + j * 8)).bind fun amount =>
    ((List.range NUM_OF_POINTS_IN_CURVE_DATA).mapM fun j =>
      readU64 d (88 + i * 160 + j * 8)).map fun price =>
    TokenPriceData.mk amount price).bind fun buy =>
  ((List.range MAX_TOKENS_IN_ASSET_POOL).mapM fun i =>
    ((List.range NUM_OF_POINTS_IN_CURVE_DATA).mapM fun j =>
      readU64 d (32008 + i * 160 + j * 8)).bind fun amount =>
    ((List.range NUM_OF_POINTS_IN_CURVE_DATA).mapM fun j =>
      readU64 d (32088 + i * 160 + j * 8)).map fun price =>
    TokenPriceData.mk amount price).map fun sell =>
  CurveData.mk buy sell

/-- CurveData::empty of accounts.rs: all-zero point tables. -/
def CurveData.empty : CurveData :=
  CurveData.mk
    (List.replicate MAX_TOKENS_IN_ASSET_POOL
      (TokenPriceData.mk (List.replicate NUM_OF_POINTS_IN_CURVE_DATA 0)
        (List.replicate NUM_OF_POINTS_IN_CURVE_DATA 0)))
    (List.replicate MAX_TOKENS_IN_ASSET_POOL
      (TokenPriceData.mk (List.replicate NUM_OF_POINTS_IN_CURVE_DATA 0)
        (List.replicate NUM_OF_POINTS_IN_CURVE_DATA 0)))

/-- The exponent of `u64::pow(10, (-expo) as u32)` in the kind-0 oracle
branch: `(-expo) as u32` is the two's-complement reinterpretation of the
negated i32 exponent. -/
def negExpoU32 (expo : Int) : Nat := ((-expo) % (2 ^ 32 : Int)).toNat

/-- OraclePrice::load of accounts.rs. Oracle kind 0 is the pyth-style feed,
kind 1 the indexed aggregator; any other tag takes the `_ => (0, 0, 0)` arm.
`clk` is the injected Clock sysvar (`Clock::get().unwrap_or_default()`). -/
def OraclePrice.load (clk : Clock) (d : Bytes) (ts : TokenSettings) : Option OraclePrice :=
  (if ts.oracle_type = 0 then
    (readU64 d 40).bind fun valid_slot =>
    (readI32 d 20).bind fun expo =>
    (readI64 d 208).bind fun price =>
    (readU64 d 216).bind fun conf =>
    (readU32 d 224).map fun status =>
    let live0 : Nat := 1
    let live1 := if clk.slot ≥ wadd 50 valid_slot then 0 else live0
    let live2 := if status ≠ 1 then 0 else live1
    let live3 := if price < 0 then 0 else live2
    let live4 := if wmul conf 10 > u64ofI64 price then 0 else live3
    let pow_num := upow10 (negExpoU32 expo)
    let avg_price := SymmetryTokenSwap.mul_div (u64ofI64 price) ONE_USD pow_num
    let confidence := SymmetryTokenSwap.mul_div conf ONE_USD pow_num
    let base_confidene := SymmetryTokenSwap.mul_div confidence ts.oracle_confidence_pct 100
    (avg_price, base_confidene, live4)
  else if ts.oracle_type = 1 then
    let price_start := ts.oracle_index * 8 + 9
    (readU64 d price_start).bind fun mantissa =>
    (readU64 d (price_start + 400)).map fun write_timestamp =>
    let live : Nat :=
      if u64ofI64 clk.unix_timestamp > wadd write_timestamp 15 then 0 else 1
    let base_confidence := SymmetryTokenSwap.mul_div mantissa ts.oracle_confidence_pct 10000
    (wsub mantissa base_confidence, base_confidence, live)
  else
    some (0, 0, 0)).map fun pcl =>
  let price := pcl.1
  let coinfidence := pcl.2.1
  let oracle_live := pcl.2.2
  let additional_confidence := SymmetryTokenSwap.mul_div price ts.fixed_confidence_bps 10000
  { sell_price := wsub (wsub price coinfidence) additional_confidence,
    avg_price := price,
    buy_price := wadd (wadd price coinfidence) additional_confidence,
    oracle_live := oracle_live }

/-- The oracle-refresh loop of update(): walks the catalog in order and
re-assigns oracle_price for every entry with a non-default oracle account.
The error value carries the partially rewritten catalog that the adapter
holds when a lookup or decode panics mid-loop. -/
def updateTokenLoop (clk : Clock) (mp : Nat → Option Bytes) :
    List TokenSettings → Except (List TokenSettings) (List TokenSettings)
  | [] => Except.ok []
  | ts :: rest =>
    if ts.oracle_account ≠ 0 then
      match mp ts.oracle_account with
      | none => Except.error (ts :: rest)
      | some blob =>
        match OraclePrice.load clk blob ts with
        | none => Except.error (ts :: rest)
        | some op =>
          let ts2 := { ts with oracle_price := op }
          match updateTokenLoop clk mp rest with
          | Except.ok l => Except.ok (ts2 :: l)
          | Except.error l => Except.error (ts2 :: l)
    else
      match updateTokenLoop clk mp rest with
      | Except.ok l => Except.ok (ts :: l)
      | Except.error l => Except.error (ts :: l)

/-- update() of symmetry_token_swap.rs. The assignments happen in source
order (curve_data, then fund_state, then the per-token oracle prices); a
panic (missing map entry or decode failure) aborts with the state mutated so
far, which Except.error exhibits. -/
def update (clk : Clock) (s : SymmetryTokenSwap) (mp : Nat → Option Bytes) :
    Except SymmetryTokenSwap SymmetryTokenSwap :=
  match mp CURVE_DATA_ADDRESS with
  | none => Except.error s
  | some cblob =>
    match CurveData.load cblob with
    | none => Except.error s
    | some cd =>
      let s1 := { s with curve_data := cd }
      match mp s.key with
      | none => Except.error s1
      | some fblob =>
        match FundState.load fblob with
        | none => Except.error s1
        | some fs =>
          let s2 := { s1 with fund_state := fs }
          match updateTokenLoop clk mp s2.token_list.list with
          | Except.error l =>
            Except.error { s2 with token_list := TokenList.mk s2.token_list.num_tokens l }
          | Except.ok l =>
            Except.ok { s2 with token_list := TokenList.mk s2.token_list.num_tokens l }

/-- The fund-worth accumulation loop of quote(): sums the USD worth of every
composition slot i < num_of_tokens and panics when any contributing oracle is
not live. -/
def fundWorthLoop (fs : FundState) (tl : TokenList) : Option Nat :=
  (List.range fs.num_of_tokens).foldlM
    (fun acc i =>
      (fs.current_comp_token.get? i).bind fun token =>
      (tl.list.get? token).bind fun ts =>
      if ts.oracle_price.oracle_live = 0 then none
      else
        (fs.current_comp_amount.get? i).map fun amt =>
          wadd acc (amount_to_usd_value amt ts.decimals ts.oracle_price.avg_price))
    0

/-- Every intermediate value of quote() up to (and including) the weight-band
quantities, in source order; the final band checks and the Quote assembly are
applied to this record by `quote` below. -/
structure QuoteMid where
  from_token_id : Nat
  to_token_id : Nat
  from_token_index : Nat
  to_token_index : Nat
  fund_worth : Nat
  from_token_target_amount : Nat
  to_token_target_amount : Nat
  value : Nat
  to_amount_walk : Nat
  amount_without_fees_raw : Nat
  fair_amount : Nat
  comp_from_amount : Nat
  comp_to_amount : Nat
  amount_without_fees : Nat
  to_amount : Nat
  total_fees : Nat
  symmetry_bps : Nat
  host_bps : Nat
  manager_bps : Nat
  symmetry_fee : Nat
  host_fee : Nat
  manager_fee : Nat
  fund_fee : Nat
  confidence_bps : Nat
  fee_bps : Nat
  from_token_worth_before_swap : Nat
  to_token_worth_before_swap : Nat
  from_token_worth_after_swap : Nat
  to_token_worth_after_swap : Nat
  from_old_weight : Nat
  to_old_weight : Nat
  fund_worth_after : Nat
  from_new_weight : Nat
  to_new_weight : Nat
  allowed_offset : Nat
  from_target_weight : Nat
  to_target_weight : Nat
  allowed_from_target_weight : Nat
  allowed_to_target_weight : Nat
  removing_dust : Bool
deriving DecidableEq, Repr, Inhabited

/-- The resolution stage of quote(): mint and composition lookups, the
fund-worth loop, and the target-amount computations, in source order. -/
structure QuoteResolved where
  from_token_id : Nat
  to_token_id : Nat
  from_token_settings : TokenSettings
  to_token_settings : TokenSettings
  from_token_index : Nat
  to_token_index : Nat
  fund_worth : Nat
  from_target_weight : Nat
  to_target_weight : Nat
  from_token_target_amount : Nat
  to_token_target_amount : Nat
  comp_from_amount : Nat
  comp_to_amount : Nat
deriving DecidableEq, Repr

/-- First half of the body of quote() of symmetry_token_swap.rs (everything
before the curve walks). -/
def quoteResolve (s : SymmetryTokenSwap) (p : QuoteParams) : Option QuoteResolved := do
  let fund_state := s.fund_state
  let token_list := s.token_list
  let from_token_id ← token_list.list.findIdx? fun x => x.token_mint == p.input_mint
  let to_token_id ← token_list.list.findIdx? fun x => x.token_mint == p.output_mint
  let from_token_settings ← token_list.list.get? from_token_id
  let to_token_settings ← token_list.list.get? to_token_id
  let from_token_index ← fund_state.current_comp_token.findIdx? fun x => x == from_token_id
  let to_token_index ← fund_state.current_comp_token.findIdx? fun x => x == to_token_id
  let fund_worth ← fundWorthLoop fund_state token_list
  let from_target_weight ← fund_state.target_weight.get? from_token_index
  let to_target_weight ← fund_state.target_weight.get? to_token_index
  let comp_from_amount ← fund_state.current_comp_amount.get? from_token_index
  let comp_to_amount ← fund_state.current_comp_amount.get? to_token_index
  pure
    { from_token_id := from_token_id, to_token_id := to_token_id,
      from_token_settings := from_token_settings, to_token_settings := to_token_settings,
      from_token_index := from_token_index, to_token_index := to_token_index,
      fund_worth := fund_worth,
      from_target_weight := from_target_weight, to_target_weight := to_target_weight,
      from_token_target_amount :=
        usd_value_to_amount
          (SymmetryTokenSwap.mul_div from_target_weight fund_worth fund_state.weight_sum)
          from_token_settings.decimals from_token_settings.oracle_price.avg_price,
      to_token_target_amount :=
        usd_value_to_amount
          (SymmetryTokenSwap.mul_div to_target_weight fund_worth fund_state.weight_sum)
          to_token_settings.decimals to_token_settings.oracle_price.avg_price,
      comp_from_amount := comp_from_amount, comp_to_amount := comp_to_amount }

/-- The two curve walks of quote(): value of the sold leg, then amount of the
bought leg, with the per-token curve rows fetched by token id. -/
def quoteWalks (s : SymmetryTokenSwap) (p : QuoteParams) (r : QuoteResolved) :
    Option (Nat × Nat) := do
  let sell_curve ← s.curve_data.sell.get? r.from_token_id
  let value ← compute_value_of_sold_token p.in_amount r.from_token_settings
    r.from_token_settings.oracle_price r.comp_from_amount r.from_token_target_amount sell_curve
  let buy_curve ← s.curve_data.buy.get? r.to_token_id
  let to_amount_walk ← compute_amount_of_bought_token value r.to_token_settings
    r.to_token_settings.oracle_price r.comp_to_amount r.to_token_target_amount buy_curve
  pure (value, to_amount_walk)

/-- The pure arithmetic tail of quote() of symmetry_token_swap.rs: fee
computation, price-impact numbers, and the weight-band quantities, in source
order, assembled into the QuoteMid record. -/
def quoteFinish (s : SymmetryTokenSwap) (p : QuoteParams) (r : QuoteResolved)
    (value to_amount_walk symmetry_bps host_bps manager_bps : Nat) : QuoteMid :=
  let fund_state := s.fund_state
  let from_amount := p.in_amount
  let from_token_price := r.from_token_settings.oracle_price
  let to_token_price := r.to_token_settings.oracle_price
  let amount_without_fees_raw :=
    usd_value_to_amount
      (amount_to_usd_value from_amount r.from_token_settings.decimals
        from_token_price.sell_price)
      r.to_token_settings.decimals to_token_price.buy_price
  let fair_amount :=
    usd_value_to_amount
      (amount_to_usd_value from_amount r.from_token_settings.decimals
        from_token_price.avg_price)
      r.to_token_settings.decimals to_token_price.avg_price
  let amount_without_fees :=
    if amount_without_fees_raw > r.comp_to_amount then r.comp_to_amount
    else amount_without_fees_raw
  let to_amount :=
    if to_amount_walk > amount_without_fees then amount_without_fees else to_amount_walk
  let total_fees := wsub amount_without_fees to_amount
  let symmetry_fee := SymmetryTokenSwap.mul_div total_fees symmetry_bps 100
  let host_fee := SymmetryTokenSwap.mul_div total_fees host_bps 100
  let manager_fee := SymmetryTokenSwap.mul_div total_fees manager_bps 100
  let fund_fee := wsub (wsub (wsub total_fees symmetry_fee) host_fee) manager_fee
  let confidence_bps :=
    SymmetryTokenSwap.mul_div (wsub fair_amount amount_without_fees)
      (BPS_DIVIDER * 100) fair_amount
  let fee_bps :=
    SymmetryTokenSwap.mul_div (wsub amount_without_fees to_amount)
      (BPS_DIVIDER * 100) fair_amount
  let from_token_worth_before_swap :=
    amount_to_usd_value r.comp_from_amount r.from_token_settings.decimals
      from_token_price.avg_price
  let to_token_worth_before_swap :=
    amount_to_usd_value r.comp_to_amount r.to_token_settings.decimals
      to_token_price.avg_price
  let from_token_worth_after_swap :=
    amount_to_usd_value (wadd r.comp_from_amount from_amount)
      r.from_token_settings.decimals from_token_price.avg_price
  let to_token_worth_after_swap :=
    amount_to_usd_value (wsub r.comp_to_amount (wsub amount_without_fees fund_fee))
      r.to_token_settings.decimals to_token_price.avg_price
  let from_old_weight :=
    SymmetryTokenSwap.mul_div from_token_worth_before_swap WEIGHT_MULTIPLIER r.fund_worth
  let to_old_weight :=
    SymmetryTokenSwap.mul_div to_token_worth_before_swap WEIGHT_MULTIPLIER r.fund_worth
  let fund_worth_after :=
    wadd (wadd (wsub (wsub r.fund_worth from_token_worth_before_swap)
      to_token_worth_before_swap) from_token_worth_after_swap) to_token_worth_after_swap
  let from_new_weight :=
    SymmetryTokenSwap.mul_div from_token_worth_after_swap WEIGHT_MULTIPLIER fund_worth_after
  let to_new_weight :=
    SymmetryTokenSwap.mul_div to_token_worth_after_swap WEIGHT_MULTIPLIER fund_worth_after
  let allowed_offset := wmul fund_state.rebalance_threshold fund_state.lp_offset_threshold
  let allowed_from_raw :=
    SymmetryTokenSwap.mul_div r.from_target_weight
      (wadd (BPS_DIVIDER * BPS_DIVIDER) allowed_offset) (BPS_DIVIDER * BPS_DIVIDER)
  let allowed_to_target_weight :=
    SymmetryTokenSwap.mul_div r.to_target_weight
      (wsub (BPS_DIVIDER * BPS_DIVIDER) allowed_offset) (BPS_DIVIDER * BPS_DIVIDER)
  let allowed_from_target_weight :=
    if allowed_from_raw > WEIGHT_MULTIPLIER then WEIGHT_MULTIPLIER else allowed_from_raw
  let removing_dust := r.from_token_id == 0 && r.to_target_weight == 0
  { from_token_id := r.from_token_id, to_token_id := r.to_token_id,
    from_token_index := r.from_token_index, to_token_index := r.to_token_index,
    fund_worth := r.fund_worth,
    from_token_target_amount := r.from_token_target_amount,
    to_token_target_amount := r.to_token_target_amount,
    value := value, to_amount_walk := to_amount_walk,
    amount_without_fees_raw := amount_without_fees_raw, fair_amount := fair_amount,
    comp_from_amount := r.comp_from_amount, comp_to_amount := r.comp_to_amount,
    amount_without_fees := amount_without_fees, to_amount := to_amount,
    total_fees := total_fees,
    symmetry_bps := symmetry_bps, host_bps := host_bps, manager_bps := manager_bps,
    symmetry_fee := symmetry_fee, host_fee := host_fee, manager_fee := manager_fee,
    fund_fee := fund_fee,
    confidence_bps := confidence_bps, fee_bps := fee_bps,
    from_token_worth_before_swap := from_token_worth_before_swap,
    to_token_worth_before_swap := to_token_worth_before_swap,
    from_token_worth_after_swap := from_token_worth_after_swap,
    to_token_worth_after_swap := to_token_worth_after_swap,
    from_old_weight := from_old_weight, to_old_weight := to_old_weight,
    fund_worth_after := fund_worth_after,
    from_new_weight := from_new_weight, to_new_weight := to_new_weight,
    allowed_offset := allowed_offset,
    from_target_weight := r.from_target_weight, to_target_weight := r.to_target_weight,
    allowed_from_target_weight := allowed_from_target_weight,
    allowed_to_target_weight := allowed_to_target_weight,
    removing_dust := removing_dust }

/-- The body of quote() of symmetry_token_swap.rs up to the weight-band
checks: resolution, curve walks, fee-share bytes of catalog entry 0, and the
arithmetic tail. Every Rust panic on this path is none. -/
def quoteSteps (s : SymmetryTokenSwap) (p : QuoteParams) : Option QuoteMid := do
  let r ← quoteResolve s p
  let vw ← quoteWalks s p r
  let entry0 ← s.token_list.list.get? 0
  let symmetry_bps ← entry0.additional_data.get? 60
  let host_bps ← entry0.additional_data.get? 61
  let manager_bps ← entry0.additional_data.get? 62
  pure (quoteFinish s p r vw.1 vw.2 symmetry_bps host_bps manager_bps)

/-- quote() of symmetry_token_swap.rs: the pipeline of quoteSteps followed by
the two weight-band checks, which panic!() on violation, and the Quote
assembly (`..Quote::default()` leaves not_enough_liquidity = false). -/
def quote (s : SymmetryTokenSwap) (p : QuoteParams) : Option Quote :=
  (quoteSteps s p).bind fun m =>
    if m.from_new_weight > m.allowed_from_target_weight ∧ m.removing_dust = false then none
    else if m.to_new_weight < m.allowed_to_target_weight then none
    else
      some
        { in_amount := p.in_amount, out_amount := m.to_amount, fee_amount := m.total_fees,
          fee_mint := p.output_mint, fee_pct_num := i64ofU64 m.fee_bps,
          price_impact_pct_num := i64ofU64 m.confidence_bps, not_enough_liquidity := false }

/-- The oracle remaining-accounts loop of get_swap_leg_and_account_metas:
one read-only AccountMeta per composition slot, in comp_token order. -/
def oracleAccountMetas (s : SymmetryTokenSwap) : Option (List AccountMeta) :=
  (List.range s.fund_state.num_of_tokens).mapM fun i =>
    (s.fund_state.current_comp_token.get? i).bind fun token =>
    (s.token_list.list.get? token).map fun ts =>
    AccountMeta.mk ts.oracle_account false false

/-- get_swap_leg_and_account_metas of symmetry_token_swap.rs. `fpa` is the
injected associated-token-account derivation
(Pubkey::find_program_address([owner, spl_token_program, mint],
associated_token_program), modelled from the spec as an abstract function of
owner and mint since address-derivation arithmetic is out of scope). The
returned value is the ordered account-meta list (the swap-leg tag is the
constant SwapLeg::Swap { swap: Swap::TokenSwap } and the built Instruction is
discarded by the source). -/
def get_swap_leg_and_account_metas (fpa : Nat → Nat → Nat) (s : SymmetryTokenSwap)
    (sp : SwapParams) : Option (List AccountMeta) :=
  (s.token_list.list.findIdx? fun x => x.token_mint == sp.source_mint).bind
    fun from_token_id =>
  (s.token_list.list.findIdx? fun x => x.token_mint == sp.destination_mint).bind
    fun to_token_id =>
  let swap_to_fee := fpa SWAP_FEE_ADDRESS sp.destination_mint
  let host_to_fee := fpa s.fund_state.host_pubkey sp.destination_mint
  let manager_to_fee := fpa s.fund_state.manager sp.destination_mint
  (s.token_list.list.get? from_token_id).bind fun from_ts =>
  (s.token_list.list.get? to_token_id).bind fun to_ts =>
  (oracleAccountMetas s).map fun oracles =>
  [ AccountMeta.mk sp.user_transfer_authority true true,
    AccountMeta.mk s.key false true,
    AccountMeta.mk PDA_ADDRESS false false,
    AccountMeta.mk from_ts.pda_token_account false true,
    AccountMeta.mk sp.user_source_token_account false true,
    AccountMeta.mk to_ts.pda_token_account false true,
    AccountMeta.mk sp.user_destination_token_account false true,
    AccountMeta.mk swap_to_fee false true,
    AccountMeta.mk host_to_fee false true,
    AccountMeta.mk manager_to_fee false true,
    AccountMeta.mk TOKEN_LIST_ADDRESS false false,
    AccountMeta.mk CURVE_DATA_ADDRESS false false,
    AccountMeta.mk SPL_TOKEN_PROGRAM_ADDRESS false false ] ++ oracles

/-- The all-default catalog entry used by TokenList::load to fill unused
slots. -/
def defaultTokenSettings : TokenSettings :=
  { token_mint := 0, decimals := 0, coingecko_id := List.replicate 30 0,
    pda_token_account := 0, oracle_type := 0, oracle_account := 0, oracle_index := 0,
    oracle_confidence_pct := 0, fixed_confidence_bps := 0,
    token_swap_fee_after_tw_bps := 0, token_swap_fee_before_tw_bps := 0,
    is_live := 0, lp_on := 0, use_curve_data := 0,
    additional_data := List.replicate 63 0,
    oracle_price := { sell_price := 0, avg_price := 0, buy_price := 0, oracle_live := 0 } }

/-- An all-zero curve row. -/
def zeroRow : TokenPriceData :=
  { amount := List.replicate NUM_OF_POINTS_IN_CURVE_DATA 0,
    price := List.replicate NUM_OF_POINTS_IN_CURVE_DATA 0 }

/-- Concrete catalog entry 0: a USD-pegged numeraire with 6 decimals, flat
oracle triplet of one dollar, no token fees, and fee-split shares
(10, 20, 30) in its trailing bytes. -/
def tsUsd : TokenSettings :=
  { defaultTokenSettings with
      token_mint := 100, decimals := 6, pda_token_account := 210, oracle_account := 220,
      additional_data := List.replicate 60 0 ++ [10, 20, 30],
      oracle_price :=
        { sell_price := 1000000000000, avg_price := 1000000000000,
          buy_price := 1000000000000, oracle_live := 1 } }

/-- Concrete catalog entry 1: a 9-decimals token priced around one hundred
dollars with a one-percent spread and 30 bps token fees on both sides. -/
def tsSol : TokenSettings :=
  { defaultTokenSettings with
      token_mint := 101, decimals := 9, pda_token_account := 211, oracle_account := 221,
      token_swap_fee_after_tw_bps := 30, token_swap_fee_before_tw_bps := 30,
      oracle_price :=
        { sell_price := 99000000000000, avg_price := 100000000000000,
          buy_price := 101000000000000, oracle_live := 1 } }

/-- Concrete fund state: two composition slots holding the numeraire and the
second token at equal target weights and on-target balances, with a wide
allowed band (rebalance_threshold times lp_offset_threshold is 10^8). -/
def baseFund : FundState :=
  { manager := 700, host_pubkey := 701, num_of_tokens := 2,
    current_comp_token := [0, 1] ++ List.replicate 18 0,
    current_comp_amount := [500000000, 5000000000] ++ List.replicate 18 0,
    target_weight := [5000, 5000] ++ List.replicate 18 0,
    weight_sum := 10000, rebalance_threshold := 10000, lp_offset_threshold := 10000 }

/-- Concrete installed adapter state over the two-token fund with an empty
curve dataset. -/
def baseState : SymmetryTokenSwap :=
  { key := 500, fund_state := baseFund,
    token_list := { num_tokens := 2, list := [tsUsd, tsSol] ++ List.replicate 98 defaultTokenSettings },
    curve_data := CurveData.empty }

/-- Concrete quote request: sell one hundred units of the numeraire for the
second token. -/
def baseParams : QuoteParams :=
  { input_mint := 100, in_amount := 100000000, output_mint := 101 }

/-- baseState with a zero-width allowed weight band: the same swap now lands
outside the band on both sides. -/
def bandState : SymmetryTokenSwap :=
  { baseState with
      fund_state := { baseFund with rebalance_threshold := 0, lp_offset_threshold := 0 } }

/-- Catalog entry for the monotonicity scenario: token of mint 101 whose
oracle triplet sits at 2^63 (so that a two-unit sale overflows the 128-bit
to 64-bit narrowing inside mul_div). -/
def tsBig : TokenSettings :=
  { defaultTokenSettings with
      token_mint := 101, decimals := 0, pda_token_account := 212, oracle_account := 222,
      oracle_price :=
        { sell_price := 9223372036854775808, avg_price := 9223372036854775808,
          buy_price := 9223372036854775808, oracle_live := 1 } }

/-- Catalog entry for the monotonicity scenario: token of mint 102 with a
unit buy/sell price and zero average price. -/
def tsUnit : TokenSettings :=
  { defaultTokenSettings with
      token_mint := 102, decimals := 0, pda_token_account := 213, oracle_account := 223,
      oracle_price := { sell_price := 1, avg_price := 0, buy_price := 1, oracle_live := 1 } }

/-- Fund for the monotonicity scenario: slots hold catalog tokens 1 and 2
with one unit of the first and 2^63 + 5 units of the second. -/
def monoFund : FundState :=
  { manager := 700, host_pubkey := 701, num_of_tokens := 2,
    current_comp_token := [1, 2] ++ List.replicate 18 0,
    current_comp_amount := [1, 9223372036854775813] ++ List.replicate 18 0,
    target_weight := [5000, 5000] ++ List.replicate 18 0,
    weight_sum := 10000, rebalance_threshold := 10000, lp_offset_threshold := 10000 }

/-- Installed adapter state for the monotonicity scenario; the buy curve of
catalog token 2 has one huge first segment so that the walkers never reach
the out-of-bounds terminal skip. -/
def monoState : SymmetryTokenSwap :=
  { key := 500, fund_state := monoFund,
    token_list :=
      { num_tokens := 3,
        list := [tsUsd, tsBig, tsUnit] ++ List.replicate 97 defaultTokenSettings },
    curve_data :=
      { buy :=
          (List.replicate MAX_TOKENS_IN_ASSET_POOL zeroRow).set 2
            { amount := 9223372036854775808 :: List.replicate 9 0,
              price := List.replicate 10 0 },
        sell := List.replicate MAX_TOKENS_IN_ASSET_POOL zeroRow } }

/-- Catalog entry for the weight-clamp scenario: token of mint 101 with
sell price zero and average price 2^63 - 1. -/
def tsSkew : TokenSettings :=
  { defaultTokenSettings with
      token_mint := 101, decimals := 0, pda_token_account := 214, oracle_account := 224,
      oracle_price :=
        { sell_price := 0, avg_price := 9223372036854775807, buy_price := 0,
          oracle_live := 1 } }

/-- Catalog entry for the weight-clamp scenario: token of mint 102 with a
flat unit oracle triplet. -/
def tsOne : TokenSettings :=
  { defaultTokenSettings with
      token_mint := 102, decimals := 0, pda_token_account := 215, oracle_account := 225,
      oracle_price := { sell_price := 1, avg_price := 1, buy_price := 1, oracle_live := 1 } }

/-- Fund for the weight-clamp scenario: the from-token target weight is
20000 (twice WEIGHT_MULTIPLIER after scaling), the to-token target weight is
zero, and the allowed offset is zero. -/
def clampFund : FundState :=
  { manager := 700, host_pubkey := 701, num_of_tokens := 2,
    current_comp_token := [1, 2] ++ List.replicate 18 0,
    current_comp_amount := [1, 3] ++ List.replicate 18 0,
    target_weight := [20000, 0] ++ List.replicate 18 0,
    weight_sum := 20000, rebalance_threshold := 0, lp_offset_threshold := 0 }

/-- Installed adapter state for the weight-clamp scenario. -/
def clampState : SymmetryTokenSwap :=
  { key := 500, fund_state := clampFund,
    token_list :=
      { num_tokens := 3,
        list := [tsUsd, tsSkew, tsOne] ++ List.replicate 97 defaultTokenSettings },
    curve_data :=
      { buy :=
          (List.replicate MAX_TOKENS_IN_ASSET_POOL zeroRow).set 2
            { amount := 5 :: List.replicate 9 0, price := List.replicate 10 0 },
        sell := List.replicate MAX_TOKENS_IN_ASSET_POOL zeroRow } }

/-- Quote request of the weight-clamp scenario. -/
def clampParams : QuoteParams := { input_mint := 101, in_amount := 1, output_mint := 102 }

/-- Byte k of the little-endian encoding of v. -/
def leByte (v k : Nat) : Nat := v / 256 ^ k % 256

/-- A concrete kind-0 oracle blob: valid_slot 1000, expo -1, price 100,
conf 2^63 + 1 (so that the liveness product conf * 10 wraps), status 1. -/
def pythBlob : Bytes :=
  { len := 228,
    byte := fun i =>
      if 40 ≤ i ∧ i < 48 then leByte 1000 (i - 40)
      else if 20 ≤ i ∧ i < 24 then leByte 4294967295 (i - 20)
      else if 208 ≤ i ∧ i < 216 then leByte 100 (i - 208)
      else if 216 ≤ i ∧ i < 224 then leByte 9223372036854775809 (i - 216)
      else if 224 ≤ i ∧ i < 228 then leByte 1 (i - 224)
      else 0 }

/-- Token settings owning pythBlob: kind-0 oracle with both confidence knobs
at zero. -/
def tsPyth : TokenSettings := { defaultTokenSettings with oracle_type := 0 }

/-- A Clock early enough that the slot-staleness test passes. -/
def clock0 : Clock := { slot := 0, unix_timestamp := 0 }

/-- An all-zero blob long enough for CurveData::load. -/
def zeroCurveBlob : Bytes := { len := 48008, byte := fun _ => 0 }

/-- An installed adapter whose curve dataset is not the all-zero one (first
buy row starts with a one) and whose catalog is empty. -/
def preUpdateState : SymmetryTokenSwap :=
  { key := 500,
    fund_state := baseFund,
    token_list := { num_tokens := 0, list := [] },
    curve_data :=
      { buy :=
          (List.replicate MAX_TOKENS_IN_ASSET_POOL zeroRow).set 0
            { amount := 1 :: List.replicate 9 0, price := List.replicate 10 0 },
        sell := List.replicate MAX_TOKENS_IN_ASSET_POOL zeroRow } }

/-- An accounts map holding a valid curve blob but no fund-state blob. -/
def missingFundMap : Nat → Option Bytes :=
  fun k => if k = CURVE_DATA_ADDRESS then some zeroCurveBlob else none

/-- Token settings with an unknown oracle variant tag. -/
def tsUnknownTag : TokenSettings := { defaultTokenSettings with oracle_type := 2 }

/-- An empty blob. -/
def emptyBlob : Bytes := { len := 0, byte := fun _ => 0 }

/-- Characterization of a successful Option-valued mapM: the result has the
same length and is the pointwise image. -/
theorem mapM_option_spec {α β : Type} (f : α → Option β) :
    ∀ (l : List α) (res : List β), l.mapM f = some res →
      res.length = l.length ∧
      ∀ i b, res.get? i = some b → ∃ a, l.get? i = some a ∧ f a = some b := by
  intro l
  induction l with
  | nil =>
    intro res h
    simp only [List.mapM_nil, Option.pure_def, Option.some.injEq] at h
    subst h
    exact ⟨rfl, by intro i b hb; simp at hb⟩
  | cons a l ih =>
    intro res h
    simp only [List.mapM_cons, Option.pure_def, Option.bind_eq_bind', Option.bind_eq_some,
      Option.some.injEq] at h
    obtain ⟨b, hb, bs, hbs, hres⟩ := h
    subst hres
    obtain ⟨hlen, hget⟩ := ih bs hbs
    refine ⟨by simp [hlen], ?_⟩
    intro i x hx
    cases i with
    | zero =>
      simp only [List.get?] at hx
      exact ⟨a, rfl, by simpa [← hx] using hb⟩
    | succ j =>
      simp only [List.get?] at hx ⊢
      exact hget j x hx

/-- A successful quoteSteps run decomposes into its stages: resolution, curve
walks, the three fee-share bytes of catalog entry 0, and the pure tail. -/
theorem quoteSteps_shape (s : SymmetryTokenSwap) (p : QuoteParams) (m : QuoteMid)
    (h : quoteSteps s p = some m) :
    ∃ r vw e0 sb hb mb,
      quoteResolve s p = some r ∧ quoteWalks s p r = some vw ∧
      s.token_list.list.get? 0 = some e0 ∧
      e0.additional_data.get? 60 = some sb ∧
      e0.additional_data.get? 61 = some hb ∧
      e0.additional_data.get? 62 = some mb ∧
      m = quoteFinish s p r vw.1 vw.2 sb hb mb := by
  simp only [quoteSteps, Option.pure_def, Option.bind_eq_bind', Option.bind_eq_some,
    Option.some.injEq] at h
  obtain ⟨r, hr, vw, hvw, e0, he0, sb, hsb, hb, hhb, mb, hmb, hm⟩ := h
  exact ⟨r, vw, e0, sb, hb, mb, hr, hvw, he0, hsb, hhb, hmb, hm.symm⟩

/-- Field identities of the pure tail quoteFinish, read off its definition:
the clamp chain, the fee split, and the clamped from-side band bound. -/
theorem quoteFinish_fields (s : SymmetryTokenSwap) (p : QuoteParams) (r : QuoteResolved)
    (v tw sb hb mb : Nat) (f : QuoteMid) (hf : f = quoteFinish s p r v tw sb hb mb) :
    f.symmetry_bps = sb ∧ f.host_bps = hb ∧ f.manager_bps = mb ∧
    f.symmetry_fee = SymmetryTokenSwap.mul_div f.total_fees sb 100 ∧
    f.host_fee = SymmetryTokenSwap.mul_div f.total_fees hb 100 ∧
    f.manager_fee = SymmetryTokenSwap.mul_div f.total_fees mb 100 ∧
    f.fund_fee = wsub (wsub (wsub f.total_fees f.symmetry_fee) f.host_fee) f.manager_fee ∧
    f.total_fees = wsub f.amount_without_fees f.to_amount ∧
    f.amount_without_fees =
      (if f.amount_without_fees_raw > f.comp_to_amount then f.comp_to_amount
       else f.amount_without_fees_raw) ∧
    f.to_amount =
      (if f.to_amount_walk > f.amount_without_fees then f.amount_without_fees
       else f.to_amount_walk) ∧
    f.allowed_from_target_weight =
      (if SymmetryTokenSwap.mul_div f.from_target_weight
            (wadd (BPS_DIVIDER * BPS_DIVIDER) f.allowed_offset)
            (BPS_DIVIDER * BPS_DIVIDER) > WEIGHT_MULTIPLIER
       then WEIGHT_MULTIPLIER
       else SymmetryTokenSwap.mul_div f.from_target_weight
            (wadd (BPS_DIVIDER * BPS_DIVIDER) f.allowed_offset)
            (BPS_DIVIDER * BPS_DIVIDER)) := by
  subst hf
  refine ⟨rfl, rfl, rfl, rfl, rfl, rfl, rfl, rfl, rfl, rfl, rfl⟩

/-- C3 counterexample: mul_div(2^63, 2^63, 1) returns 0, not
floor(2^63 * 2^63 / 1) = 2^126, because the u128 quotient is narrowed to u64
by a truncating cast. -/
theorem mul_div_narrowing_counterexample :
    SymmetryTokenSwap.mul_div 9223372036854775808 9223372036854775808 1 = 0 ∧
    9223372036854775808 * 9223372036854775808 / 1 =
      85070591730234615865843651857942052864 ∧
    (85070591730234615865843651857942052864 : Nat) ≠ 0 := by
  refine ⟨by decide, by norm_num, by norm_num⟩

/-- C3 (amended): mul_div(a, b, c) is 0 when c = 0; for c ≠ 0 it is the
128-bit quotient floor(a*b/c) reduced modulo 2^64, hence equals
floor(a*b/c) exactly whenever that quotient fits in u64. -/
theorem mul_div_spec (a b c : Nat) :
    (c = 0 → SymmetryTokenSwap.mul_div a b c = 0) ∧
    (c ≠ 0 → SymmetryTokenSwap.mul_div a b c = a * b / c % M64) ∧
    (c ≠ 0 → a * b / c < M64 → SymmetryTokenSwap.mul_div a b c = a * b / c) := by
  refine ⟨fun h => by simp [SymmetryTokenSwap.mul_div, h],
    fun h => by simp [SymmetryTokenSwap.mul_div, h],
    fun h h2 => by simp [SymmetryTokenSwap.mul_div, h, Nat.mod_eq_of_lt h2]⟩

/-- C3 witness: mul_div at (7, 9, 4) computes floor(63/4) = 15, through the
amended characterization. -/
theorem mul_div_spec_witness :
    (4 : Nat) ≠ 0 ∧ 7 * 9 / 4 < M64 ∧ SymmetryTokenSwap.mul_div 7 9 4 = 7 * 9 / 4 :=
  ⟨by decide, by decide, (mul_div_spec 7 9 4).2.2 (by decide) (by decide)⟩

/-- C4 counterexample: a kind-0 oracle blob with conf = 2^63 + 1 and
price = 100 decodes with oracle_live = 1: the liveness product conf * 10
wraps to 10, so the confidence check silently passes instead of surfacing
the overflow as a hard error. -/
theorem oracle_conf_product_wraps_counterexample :
    readU64 pythBlob 216 = some 9223372036854775809 ∧
    readI64 pythBlob 208 = some 100 ∧
    M64 ≤ 9223372036854775809 * 10 ∧
    wmul 9223372036854775809 10 = 10 ∧
    OraclePrice.load clock0 pythBlob tsPyth =
      some { sell_price := 10000000000000, avg_price := 10000000000000,
             buy_price := 10000000000000, oracle_live := 1 } := by
  refine ⟨by decide, by decide, ?_, by decide, by decide⟩
  norm_num [M64]

/-- C4 (amended): mul_div never errors on an oversized quotient; for c ≠ 0
it silently reduces the 128-bit quotient modulo 2^64, always returning a
value below 2^64. -/
theorem mul_div_silent_truncation (a b c : Nat) (h : c ≠ 0) :
    SymmetryTokenSwap.mul_div a b c = a * b / c % M64 ∧
    SymmetryTokenSwap.mul_div a b c < M64 := by
  constructor
  · simp [SymmetryTokenSwap.mul_div, h]
  · simp only [SymmetryTokenSwap.mul_div, h, if_neg h]
    exact Nat.mod_lt _ (Nat.pos_pow_of_pos 64 (by omega))

/-- C4 witness: the truncation characterization applied at
(2^64 - 1, 2^64 - 1, 1), where the quotient 2^128 - 2^65 + 1 is reduced to 1. -/
theorem mul_div_silent_truncation_witness :
    (1 : Nat) ≠ 0 ∧
    SymmetryTokenSwap.mul_div 18446744073709551615 18446744073709551615 1 =
      18446744073709551615 * 18446744073709551615 / 1 % M64 :=
  ⟨by decide,
    (mul_div_silent_truncation 18446744073709551615 18446744073709551615 1 (by decide)).1⟩

/-- C8 counterexample: an unknown oracle variant tag (2) does not produce a
decode error; OraclePrice::load silently returns the zero price with
oracle_live = 0. -/
theorem unknown_oracle_tag_counterexample :
    tsUnknownTag.oracle_type = 2 ∧
    OraclePrice.load clock0 emptyBlob tsUnknownTag ≠ none ∧
    OraclePrice.load clock0 emptyBlob tsUnknownTag =
      some { sell_price := 0, avg_price := 0, buy_price := 0, oracle_live := 0 } := by
  refine ⟨by decide, by decide, by decide⟩

/-- C8 (amended): for every blob and every TokenSettings whose tag is
neither 0 nor 1, OraclePrice::load succeeds with the all-zero price and
oracle_live = 0 (the `_ => (0, 0, 0)` match arm), rather than failing. -/
theorem unknown_oracle_tag_silent (clk : Clock) (d : Bytes) (ts : TokenSettings)
    (h0 : ts.oracle_type ≠ 0) (h1 : ts.oracle_type ≠ 1) :
    OraclePrice.load clk d ts =
      some { sell_price := 0, avg_price := 0, buy_price := 0, oracle_live := 0 } := by
  simp [OraclePrice.load, h0, h1, SymmetryTokenSwap.mul_div, wsub, wadd]

/-- C8 witness: the unknown-tag behaviour at a concrete entry with tag 7. -/
theorem unknown_oracle_tag_silent_witness :
    OraclePrice.load clock0 emptyBlob { defaultTokenSettings with oracle_type := 7 } =
      some { sell_price := 0, avg_price := 0, buy_price := 0, oracle_live := 0 } :=
  unknown_oracle_tag_silent clock0 emptyBlob _ (by decide) (by decide)

/-- The QuoteMid reached by the zero-band scenario. -/
def bandMid : QuoteMid := (quoteSteps bandState baseParams).getD default

/-- The QuoteMid reached by the weight-clamp scenario. -/
def clampMid : QuoteMid := (quoteSteps clampState clampParams).getD default

/-- The QuoteMid reached by the base scenario. -/
def baseMid : QuoteMid := (quoteSteps baseState baseParams).getD default

/-- The Quote returned by the base scenario. -/
def baseQuote : Quote := (quote baseState baseParams).getD default

/-- Shared band-check lemma: whenever the pipeline reaches the weight-band
stage with the from-side bound exceeded and no dust-removal exemption, quote
is the hard error (panic), never a Quote value. -/
theorem quote_none_of_from_band (s : SymmetryTokenSwap) (p : QuoteParams) (m : QuoteMid)
    (h : quoteSteps s p = some m)
    (hgt : m.from_new_weight > m.allowed_from_target_weight)
    (hdust : m.removing_dust = false) :
    quote s p = none := by
  simp only [quote, h, Option.some_bind]
  rw [if_pos ⟨hgt, hdust⟩]

/-- C1 counterexample: in the zero-band scenario the post-swap from-weight
(5993) exceeds the allowed bound (5000) with no dust exemption, and quote is
the hard error none (a Rust panic), not a Quote with out_amount = 0 and
not_enough_liquidity = true. -/
theorem band_violation_hard_error_counterexample :
    quoteSteps bandState baseParams = some bandMid ∧
    bandMid.from_new_weight = 5993 ∧
    bandMid.allowed_from_target_weight = 5000 ∧
    bandMid.removing_dust = false ∧
    quote bandState baseParams = none := by
  refine ⟨by decide, by decide, by decide, by decide, by decide⟩

/-- C1 (amended): a weight-band violation on either side (from_new_weight
above the allowed from-bound without the dust exemption, or to_new_weight
below the allowed to-bound) makes quote fail with a hard error (the source
panics); no soft Quote with out_amount = 0 and not_enough_liquidity = true
is ever produced. -/
theorem band_violation_hard_error (s : SymmetryTokenSwap) (p : QuoteParams) (m : QuoteMid)
    (h : quoteSteps s p = some m)
    (hv : (m.from_new_weight > m.allowed_from_target_weight ∧ m.removing_dust = false) ∨
      m.to_new_weight < m.allowed_to_target_weight) :
    quote s p = none := by
  simp only [quote, h, Option.some_bind]
  rcases hv with h1 | h2
  · rw [if_pos h1]
  · by_cases c1 : m.from_new_weight > m.allowed_from_target_weight ∧ m.removing_dust = false
    · rw [if_pos c1]
    · rw [if_neg c1, if_pos h2]

/-- C1 witness: the amended statement applied to the zero-band scenario,
whose swap violates the from-side bound with no dust exemption. -/
theorem band_violation_hard_error_witness : quote bandState baseParams = none :=
  band_violation_hard_error bandState baseParams bandMid (by decide)
    (Or.inl ⟨by decide, by decide⟩)

/-- C2: with the all-zero curve dataset installed, a quote request with
in_amount = 0 does not return the zero quote demanded by the spec: the sell
walker reaches the terminal skip branch and reads curve_data.amount[10] out
of bounds, a panic. -/
theorem zero_in_amount_panics_on_zero_curve :
    quote baseState { input_mint := 100, in_amount := 0, output_mint := 101 } = none ∧
    compute_value_of_sold_token 0 tsUsd tsUsd.oracle_price 500000000 500000000 zeroRow =
      none := by
  refine ⟨by decide, by decide⟩

/-- C10: the from-side band bound is clamped to WEIGHT_MULTIPLIER (10000):
whenever the scaled from-target weight exceeds 10000, any swap without the
dust exemption whose post-swap from-weight exceeds 10000 is rejected (the
band check panics). -/
theorem allowed_from_weight_clamped (s : SymmetryTokenSwap) (p : QuoteParams) (m : QuoteMid)
    (h : quoteSteps s p = some m)
    (hraw : SymmetryTokenSwap.mul_div m.from_target_weight
        (wadd (BPS_DIVIDER * BPS_DIVIDER) m.allowed_offset)
        (BPS_DIVIDER * BPS_DIVIDER) > WEIGHT_MULTIPLIER)
    (hnew : m.from_new_weight > WEIGHT_MULTIPLIER)
    (hdust : m.removing_dust = false) :
    m.allowed_from_target_weight = WEIGHT_MULTIPLIER ∧ quote s p = none := by
  obtain ⟨r, vw, e0, sb, hb, mb, _, _, _, _, _, _, hm⟩ := quoteSteps_shape s p m h
  obtain ⟨_, _, _, _, _, _, _, _, _, _, hclamp⟩ :=
    quoteFinish_fields s p r vw.1 vw.2 sb hb mb m hm
  have hallow : m.allowed_from_target_weight = WEIGHT_MULTIPLIER := by
    rw [hclamp, if_pos hraw]
  exact ⟨hallow, quote_none_of_from_band s p m h (by rw [hallow]; exact hnew) hdust⟩

/-- C10 witness: in the weight-clamp scenario the scaled from-target weight
is 20000, the clamp engages, the wrapped post-swap from-weight exceeds
10000, and quote errors. -/
theorem allowed_from_weight_clamped_witness :
    clampMid.allowed_from_target_weight = WEIGHT_MULTIPLIER ∧
    quote clampState clampParams = none :=
  allowed_from_weight_clamped clampState clampParams clampMid
    (by decide) (by decide) (by decide) (by decide)

instance : NeZero M64 := ⟨by norm_num [M64]⟩

/-- wadd results are reduced u64 values. -/
theorem wadd_lt (a b : Nat) : wadd a b < M64 :=
  Nat.mod_lt _ (Nat.pos_pow_of_pos 64 (by omega))

/-- wsub results are reduced u64 values. -/
theorem wsub_lt (a b : Nat) : wsub a b < M64 :=
  Nat.mod_lt _ (Nat.pos_pow_of_pos 64 (by omega))

/-- mul_div results are reduced u64 values. -/
theorem mul_div_lt (a b c : Nat) : SymmetryTokenSwap.mul_div a b c < M64 := by
  unfold SymmetryTokenSwap.mul_div
  split
  · exact Nat.pos_pow_of_pos 64 (by omega)
  · exact Nat.mod_lt _ (Nat.pos_pow_of_pos 64 (by omega))

/-- wadd is addition in ZMod 2^64. -/
theorem cast_wadd (a b : Nat) : ((wadd a b : Nat) : ZMod M64) = (a : ZMod M64) + b := by
  simp [wadd]

/-- wsub is subtraction in ZMod 2^64. -/
theorem cast_wsub (a b : Nat) : ((wsub a b : Nat) : ZMod M64) = (a : ZMod M64) - b := by
  have hb : b % M64 ≤ M64 := le_of_lt (Nat.mod_lt _ (Nat.pos_pow_of_pos 64 (by omega)))
  calc ((wsub a b : Nat) : ZMod M64)
      = ((a % M64 + (M64 - b % M64) : Nat) : ZMod M64) := by
        rw [wsub, ZMod.natCast_mod]
    _ = ((a % M64 : Nat) : ZMod M64) + (((M64 : Nat) : ZMod M64) - ((b % M64 : Nat) : ZMod M64)) := by
        rw [Nat.cast_add, Nat.cast_sub hb]
    _ = (a : ZMod M64) - b := by
        rw [ZMod.natCast_mod, ZMod.natCast_mod, ZMod.natCast_self]
        ring

/-- On u64-range inputs with b ≤ a, wsub is plain subtraction. -/
theorem wsub_small {a b : Nat} (hb : b ≤ a) (ha : a < M64) : wsub a b = a - b := by
  have h1 : a % M64 = a := Nat.mod_eq_of_lt ha
  have h2 : b % M64 = b := Nat.mod_eq_of_lt (lt_of_le_of_lt hb ha)
  unfold wsub
  rw [h1, h2]
  have h3 : a + (M64 - b) = M64 + (a - b) := by
    have : b ≤ M64 := le_of_lt (lt_of_le_of_lt hb ha)
    omega
  rw [h3, Nat.add_mod_left]
  exact Nat.mod_eq_of_lt (by omega)

/-- The u64 fee-split identity: the three wrapped shares plus the remainder
share always re-add (with wrapping addition) to the total. -/
theorem fee_split_wrap_sum (T sf hf mf : Nat) (hT : T < M64) :
    wadd (wadd (wadd sf hf) mf) (wsub (wsub (wsub T sf) hf) mf) = T := by
  have hcast :
      ((wadd (wadd (wadd sf hf) mf) (wsub (wsub (wsub T sf) hf) mf) : Nat) : ZMod M64) =
        (T : ZMod M64) := by
    simp only [cast_wadd, cast_wsub]
    ring
  have h1 := wadd_lt (wadd (wadd sf hf) mf) (wsub (wsub (wsub T sf) hf) mf)
  have := congrArg ZMod.val hcast
  rwa [ZMod.val_cast_of_lt h1, ZMod.val_cast_of_lt hT] at this

/-- When the three catalog shares sum to at most 100, the fee split is an
exact partition of the total in plain natural arithmetic. -/
theorem fee_split_exact (T sb hb mb : Nat) (hT : T < M64) (hsum : sb + hb + mb ≤ 100) :
    SymmetryTokenSwap.mul_div T sb 100 + SymmetryTokenSwap.mul_div T hb 100 +
      SymmetryTokenSwap.mul_div T mb 100 +
      wsub (wsub (wsub T (SymmetryTokenSwap.mul_div T sb 100))
        (SymmetryTokenSwap.mul_div T hb 100)) (SymmetryTokenSwap.mul_div T mb 100) = T := by
  have hx : ∀ x : Nat, x ≤ 100 → SymmetryTokenSwap.mul_div T x 100 = T * x / 100 := by
    intro x hxle
    have hle : T * x / 100 ≤ T := by
      have h1 : T * x ≤ T * 100 := Nat.mul_le_mul_left T hxle
      have h2 : T * x / 100 ≤ T * 100 / 100 := Nat.div_le_div_right h1
      simpa [Nat.mul_div_cancel_left, Nat.mul_div_cancel] using h2
    have : T * x / 100 < M64 := lt_of_le_of_lt hle hT
    simp [SymmetryTokenSwap.mul_div, Nat.mod_eq_of_lt this]
  have hA := hx sb (by omega)
  have hB := hx hb (by omega)
  have hC := hx mb (by omega)
  set A := SymmetryTokenSwap.mul_div T sb 100 with hAdef
  set B := SymmetryTokenSwap.mul_div T hb 100 with hBdef
  set C := SymmetryTokenSwap.mul_div T mb 100 with hCdef
  have habc : A + B + C ≤ T := by
    have k1 : A * 100 ≤ T * sb := by rw [hA]; exact Nat.div_mul_le_self _ _
    have k2 : B * 100 ≤ T * hb := by rw [hB]; exact Nat.div_mul_le_self _ _
    have k3 : C * 100 ≤ T * mb := by rw [hC]; exact Nat.div_mul_le_self _ _
    have k4 : T * sb + T * hb + T * mb ≤ T * 100 := by
      calc T * sb + T * hb + T * mb = T * (sb + hb + mb) := by ring
        _ ≤ T * 100 := Nat.mul_le_mul_left T hsum
    have k5 : (A + B + C) * 100 ≤ T * 100 := by
      calc (A + B + C) * 100 = A * 100 + B * 100 + C * 100 := by ring
        _ ≤ T * sb + T * hb + T * mb := by omega
        _ ≤ T * 100 := k4
    exact Nat.le_of_mul_le_mul_right k5 (by omega)
  have hA_le : A ≤ T := by omega
  have w1 : wsub T A = T - A := wsub_small hA_le hT
  have w2 : wsub (T - A) B = T - A - B := wsub_small (by omega) (by omega)
  have w3 : wsub (T - A - B) C = T - A - B - C := wsub_small (by omega) (by omega)
  rw [w1, w2, w3]
  omega

/-- Field extraction from a successful quote: the Quote record copies
to_amount and total_fees from the pipeline. -/
theorem quote_some_fields (s : SymmetryTokenSwap) (p : QuoteParams) (m : QuoteMid)
    (q : Quote) (hm : quoteSteps s p = some m) (hq : quote s p = some q) :
    q.out_amount = m.to_amount ∧ q.fee_amount = m.total_fees := by
  simp only [quote, hm, Option.some_bind] at hq
  by_cases c1 : m.from_new_weight > m.allowed_from_target_weight ∧ m.removing_dust = false
  · rw [if_pos c1] at hq; cases hq
  · rw [if_neg c1] at hq
    by_cases c2 : m.to_new_weight < m.allowed_to_target_weight
    · rw [if_pos c2] at hq; cases hq
    · rw [if_neg c2] at hq
      cases hq
      exact ⟨rfl, rfl⟩

/-- C5: fee-split conservation. For every successful quote, the reported
fee_amount is total_fees = amount_without_fees - to_amount; the three shares
come from catalog entry 0's trailing bytes via
mul_div(total_fees, bps, 100); the four shares re-add exactly to total_fees
in u64 arithmetic, and in plain natural arithmetic whenever the three
catalog shares sum to at most 100. -/
theorem fee_split_conservation (s : SymmetryTokenSwap) (p : QuoteParams) (m : QuoteMid)
    (q : Quote) (hm : quoteSteps s p = some m) (hq : quote s p = some q) :
    q.fee_amount = m.total_fees ∧
    (∃ e0, s.token_list.list.get? 0 = some e0 ∧
      e0.additional_data.get? 60 = some m.symmetry_bps ∧
      e0.additional_data.get? 61 = some m.host_bps ∧
      e0.additional_data.get? 62 = some m.manager_bps) ∧
    m.symmetry_fee = SymmetryTokenSwap.mul_div m.total_fees m.symmetry_bps 100 ∧
    m.host_fee = SymmetryTokenSwap.mul_div m.total_fees m.host_bps 100 ∧
    m.manager_fee = SymmetryTokenSwap.mul_div m.total_fees m.manager_bps 100 ∧
    m.fund_fee = wsub (wsub (wsub m.total_fees m.symmetry_fee) m.host_fee) m.manager_fee ∧
    wadd (wadd (wadd m.symmetry_fee m.host_fee) m.manager_fee) m.fund_fee = m.total_fees ∧
    (m.symmetry_bps + m.host_bps + m.manager_bps ≤ 100 →
      m.symmetry_fee + m.host_fee + m.manager_fee + m.fund_fee = m.total_fees) := by
  obtain ⟨r, vw, e0, sb, hb, mb, _, _, he0, hsb, hhb, hmb, hmid⟩ := quoteSteps_shape s p m hm
  obtain ⟨hb1, hb2, hb3, hf1, hf2, hf3, hff, htot, _, _, _⟩ :=
    quoteFinish_fields s p r vw.1 vw.2 sb hb mb m hmid
  have hTlt : m.total_fees < M64 := by rw [htot]; exact wsub_lt _ _
  refine ⟨(quote_some_fields s p m q hm hq).2, ⟨e0, he0, ?_, ?_, ?_⟩, ?_, ?_, ?_, hff, ?_, ?_⟩
  · rw [hb1]; exact hsb
  · rw [hb2]; exact hhb
  · rw [hb3]; exact hmb
  · rw [hf1, hb1]
  · rw [hf2, hb2]
  · rw [hf3, hb3]
  · rw [hf1, hf2, hf3, hff, hf1, hf2, hf3]
    exact fee_split_wrap_sum m.total_fees _ _ _ hTlt
  · intro hsum
    rw [hf1, hf2, hf3, hff, hf1, hf2, hf3]
    rw [hb1, hb2, hb3] at hsum
    exact fee_split_exact m.total_fees sb hb mb hTlt hsum

/-- C5 witness: the fee split at the base scenario, where the shares are
(10, 20, 30) percent and 297029 + 594059 + 891089 + 1188120 = 2970297. -/
theorem fee_split_conservation_witness :
    baseQuote.fee_amount = baseMid.total_fees ∧
    baseMid.symmetry_fee + baseMid.host_fee + baseMid.manager_fee + baseMid.fund_fee =
      baseMid.total_fees :=
  have h := fee_split_conservation baseState baseParams baseMid baseQuote
    (by decide) (by decide)
  ⟨h.1, h.2.2.2.2.2.2.2 (by decide)⟩

/-- C6 counterexample: in the monotonicity scenario, both quote requests
succeed below the saturation point (amount_without_fees_raw is under
comp_to_amount in both runs), yet raising in_amount from 1 to 2 drops
out_amount from 2^63 to 0: the 128-bit to 64-bit narrowing inside mul_div
makes the pipeline non-monotone. -/
theorem quote_not_monotone_counterexample :
    (quote monoState { input_mint := 101, in_amount := 1, output_mint := 102 }).map
        Quote.out_amount = some 9223372036854775808 ∧
    (quote monoState { input_mint := 101, in_amount := 2, output_mint := 102 }).map
        Quote.out_amount = some 0 ∧
    (quoteSteps monoState { input_mint := 101, in_amount := 1, output_mint := 102 }).map
        (fun m => (m.amount_without_fees_raw, m.comp_to_amount)) =
      some (9223372036854775808, 9223372036854775813) ∧
    (quoteSteps monoState { input_mint := 101, in_amount := 2, output_mint := 102 }).map
        (fun m => (m.amount_without_fees_raw, m.comp_to_amount)) =
      some (0, 9223372036854775813) ∧
    (9223372036854775808 : Nat) < 9223372036854775813 ∧ (0 : Nat) < 9223372036854775808 := by
  refine ⟨by decide, by decide, by decide, by decide, by decide, by decide⟩

/-- C6 (amended): out_amount is not monotone in in_amount; what the clamp
chain does guarantee is the cap: to_amount never exceeds the clamped
amount_without_fees, which never exceeds comp_amount[to_idx], and the
returned out_amount equals to_amount. -/
theorem quote_out_amount_capped (s : SymmetryTokenSwap) (p : QuoteParams) (m : QuoteMid)
    (hm : quoteSteps s p = some m) :
    m.to_amount ≤ m.amount_without_fees ∧
    m.amount_without_fees ≤ m.comp_to_amount ∧
    ∀ q, quote s p = some q → q.out_amount ≤ m.comp_to_amount := by
  obtain ⟨r, vw, e0, sb, hb, mb, _, _, _, _, _, _, hmid⟩ := quoteSteps_shape s p m hm
  obtain ⟨_, _, _, _, _, _, _, _, hawf, hto, _⟩ :=
    quoteFinish_fields s p r vw.1 vw.2 sb hb mb m hmid
  have h1 : m.to_amount ≤ m.amount_without_fees := by
    rw [hto]; split
    · exact le_refl _
    · omega
  have h2 : m.amount_without_fees ≤ m.comp_to_amount := by
    rw [hawf]; split
    · exact le_refl _
    · omega
  refine ⟨h1, h2, fun q hq => ?_⟩
  have := (quote_some_fields s p m q hm hq).1
  omega

/-- C6 witness: the cap chain evaluated at the base scenario, where
987128712 ≤ 990099009 ≤ 5000000000. -/
theorem quote_out_amount_capped_witness :
    baseMid.to_amount ≤ baseMid.amount_without_fees ∧
    baseMid.amount_without_fees ≤ baseMid.comp_to_amount ∧
    baseQuote.out_amount ≤ baseMid.comp_to_amount :=
  have h := quote_out_amount_capped baseState baseParams baseMid (by decide)
  ⟨h.1, h.2.1, h.2.2 baseQuote (by decide)⟩

/-- C7 counterexample: update() with a valid curve blob but a missing
fund-state blob fails, yet the failed call has already replaced curve_data
(the old dataset had a nonzero first buy row; the error state carries the
freshly decoded all-zero dataset): the previous snapshot is not left intact. -/
theorem update_partial_mutation_counterexample :
    update clock0 preUpdateState missingFundMap =
      Except.error { preUpdateState with curve_data := CurveData.empty } ∧
    CurveData.empty ≠ preUpdateState.curve_data := by
  constructor
  · rfl
  · decide

/-- C7 (amended): update() mutates in place in source order rather than
building new values and swapping at the end: when the curve blob decodes but
the fund-state blob is absent, the call fails with the new curve dataset
already installed and everything else unchanged. -/
theorem update_mutates_in_place (clk : Clock) (s : SymmetryTokenSwap)
    (mp : Nat → Option Bytes) (blob : Bytes) (cd : CurveData)
    (h1 : mp CURVE_DATA_ADDRESS = some blob) (h2 : CurveData.load blob = some cd)
    (h3 : mp s.key = none) :
    update clk s mp = Except.error { s with curve_data := cd } := by
  simp [update, h1, h2, h3]

/-- C7 witness: the amended statement at the concrete scenario. -/
theorem update_mutates_in_place_witness :
    update clock0 preUpdateState missingFundMap =
      Except.error { preUpdateState with curve_data := CurveData.empty } :=
  update_mutates_in_place clock0 preUpdateState missingFundMap zeroCurveBlob
    CurveData.empty rfl (by rfl) rfl

/-- Characterization of the oracle remaining-accounts list: one read-only
entry per composition slot, carrying the oracle account of the catalog entry
named by comp_token, in slot order. -/
theorem oracleAccountMetas_spec (s : SymmetryTokenSwap) (oms : List AccountMeta)
    (h : oracleAccountMetas s = some oms) :
    oms.length = s.fund_state.num_of_tokens ∧
    ∀ i am, oms.get? i = some am →
      am.is_signer = false ∧ am.is_writable = false ∧
      ∃ t ts, s.fund_state.current_comp_token.get? i = some t ∧
        s.token_list.list.get? t = some ts ∧ am.pubkey = ts.oracle_account := by
  obtain ⟨hlen, hget⟩ := mapM_option_spec _ _ _ h
  refine ⟨by simpa using hlen, fun i am ham => ?_⟩
  obtain ⟨a, ha, hfa⟩ := hget i am ham
  have hlt : i < s.fund_state.num_of_tokens := by
    by_contra hge
    rw [List.get?_eq_none.mpr (by simpa using le_of_not_lt hge)] at ha
    cases ha
  rw [List.get?_range hlt] at ha
  injection ha with ha
  subst ha
  simp only [Option.bind_eq_some, Option.map_eq_some'] at hfa
  obtain ⟨t, ht, ts, hts, ham2⟩ := hfa
  subst ham2
  exact ⟨rfl, rfl, t, ts, ht, hts, rfl⟩

/-- C9: build_swap_accounts returns exactly the thirteen fixed account roles
in order (user authority signer and writable, fund state writable, fund PDA
read-only, source custody writable, user source writable, destination
custody writable, user destination writable, the three fee ATAs, catalog,
curve dataset and SPL token program read-only), followed by one read-only
oracle account per composition slot in comp_token order; as an equation over
the installed state it is the same list on every invocation. -/
theorem swap_account_metas_exact (fpa : Nat → Nat → Nat) (s : SymmetryTokenSwap)
    (sp : SwapParams) (fid tid : Nat) (fts tts : TokenSettings) (oms : List AccountMeta)
    (h1 : s.token_list.list.findIdx? (fun x => x.token_mint == sp.source_mint) = some fid)
    (h2 : s.token_list.list.findIdx? (fun x => x.token_mint == sp.destination_mint) = some tid)
    (h3 : s.token_list.list.get? fid = some fts)
    (h4 : s.token_list.list.get? tid = some tts)
    (h5 : oracleAccountMetas s = some oms) :
    get_swap_leg_and_account_metas fpa s sp =
      some
        ([ AccountMeta.mk sp.user_transfer_authority true true,
           AccountMeta.mk s.key false true,
           AccountMeta.mk PDA_ADDRESS false false,
           AccountMeta.mk fts.pda_token_account false true,
           AccountMeta.mk sp.user_source_token_account false true,
           AccountMeta.mk tts.pda_token_account false true,
           AccountMeta.mk sp.user_destination_token_account false true,
           AccountMeta.mk (fpa SWAP_FEE_ADDRESS sp.destination_mint) false true,
           AccountMeta.mk (fpa s.fund_state.host_pubkey sp.destination_mint) false true,
           AccountMeta.mk (fpa s.fund_state.manager sp.destination_mint) false true,
           AccountMeta.mk TOKEN_LIST_ADDRESS false false,
           AccountMeta.mk CURVE_DATA_ADDRESS false false,
           AccountMeta.mk SPL_TOKEN_PROGRAM_ADDRESS false false ] ++ oms) ∧
    oms.length = s.fund_state.num_of_tokens ∧
    ∀ i am, oms.get? i = some am →
      am.is_signer = false ∧ am.is_writable = false ∧
      ∃ t ts, s.fund_state.current_comp_token.get? i = some t ∧
        s.token_list.list.get? t = some ts ∧ am.pubkey = ts.oracle_account := by
  obtain ⟨hlen, hpt⟩ := oracleAccountMetas_spec s oms h5
  refine ⟨?_, hlen, hpt⟩
  have h3g : s.token_list.list[fid]? = some fts := by
    rw [← List.get?_eq_getElem?]; exact h3
  have h4g : s.token_list.list[tid]? = some tts := by
    rw [← List.get?_eq_getElem?]; exact h4
  simp [get_swap_leg_and_account_metas, h1, h2, h3g, h4g, h5]

/-- C9 witness: the account list of the base scenario with a concrete
derivation function, listing both oracle accounts (220 then 221) in
comp_token order. -/
theorem swap_account_metas_exact_witness :
    get_swap_leg_and_account_metas (fun owner mint => 1000000000 + owner * 100000 + mint)
      baseState
      { source_mint := 100, destination_mint := 101, user_source_token_account := 601,
        user_destination_token_account := 602, user_transfer_authority := 600,
        in_amount := 42, open_order_address := none, quote_mint_to_referrer := none } =
      some
        ([ AccountMeta.mk 600 true true,
           AccountMeta.mk 500 false true,
           AccountMeta.mk PDA_ADDRESS false false,
           AccountMeta.mk 210 false true,
           AccountMeta.mk 601 false true,
           AccountMeta.mk 211 false true,
           AccountMeta.mk 602 false true,
           AccountMeta.mk 92000500101 false true,
           AccountMeta.mk 1070100101 false true,
           AccountMeta.mk 1070000101 false true,
           AccountMeta.mk TOKEN_LIST_ADDRESS false false,
           AccountMeta.mk CURVE_DATA_ADDRESS false false,
           AccountMeta.mk SPL_TOKEN_PROGRAM_ADDRESS false false ] ++
          [ AccountMeta.mk 220 false false, AccountMeta.mk 221 false false ]) := by
  have h :=
    (swap_account_metas_exact (fun owner mint => 1000000000 + owner * 100000 + mint)
      baseState
      { source_mint := 100, destination_mint := 101, user_source_token_account := 601,
        user_destination_token_account := 602, user_transfer_authority := 600,
        in_amount := 42, open_order_address := none, quote_mint_to_referrer := none }
      0 1 tsUsd tsSol
      [ AccountMeta.mk 220 false false, AccountMeta.mk 221 false false ]
      (by decide) (by decide) (by decide) (by decide) (by decide)).1
  rw [h]
  decide
